import Mathlib

/-!
Verification development for the geoson GeoJSON reader/writer
(src/include/geoson/parser.hpp and src/include/geoson/writter.hpp).

The JSON document tree (nlohmann::json in the source) is embedded as the
inductive `geoson.Json`; doubles are embedded as rationals, which is exact
for every operation the code performs on coordinates (the code never does
arithmetic on them itself, it only moves them around and hands geodetic
ones to the external transform, which is kept abstract as a function
parameter).  Fallible C++ code (exceptions) is embedded in `Except String`.

The data model (geoson/types.hpp) and the geometry primitives of the
external concord library are not under src/; they are modelled from the
spec where noted in doc comments.
-/

namespace geoson

/-- Embedding of the nlohmann::json document tree: object, array, string,
number, boolean and null nodes.  Numbers are rationals (see module note). -/
inductive Json where
  | null : Json
  | bool (b : Bool) : Json
  | num (q : ℚ) : Json
  | str (s : String) : Json
  | arr (elts : List Json) : Json
  | obj (entries : List (String × Json)) : Json

namespace Json

/-- The element sequence visited by a C++ range-for over an nlohmann::json
value: arrays yield their elements, objects their mapped values, null an
empty range, and every other (primitive) value yields itself once. -/
def elements : Json → List Json
  | .null => []
  | .arr xs => xs
  | .obj kvs => kvs.map (fun kv => kv.2)
  | j => [j]

/-- nlohmann::json size(): 0 for null, length for arrays and objects,
1 for every primitive. -/
def jsize : Json → Nat
  | .null => 0
  | .arr xs => xs.length
  | .obj kvs => kvs.length
  | _ => 1

/-- nlohmann::json items(): key/value pairs for objects, index strings as
keys for arrays, the empty key for primitives, nothing for null. -/
def items : Json → List (String × Json)
  | .obj kvs => kvs
  | .arr xs => (xs.enum.map fun p => (toString p.1, p.2))
  | .null => []
  | j => [("", j)]

mutual

/-- Structural weight of a document node, used only as the recursion fuel
of parseGeometry below; it strictly dominates every node reachable by the
iteration order of elements. -/
def weight : Json → Nat
  | .null => 1
  | .bool _ => 1
  | .num _ => 1
  | .str _ => 1
  | .arr xs => Json.weightList xs + 1
  | .obj kvs => Json.weightEntries kvs + 1

/-- Weight of an element list (see Json.weight). -/
def weightList : List Json → Nat
  | [] => 1
  | x :: xs => Json.weight x + Json.weightList xs + 1

/-- Weight of an entry list (see Json.weight). -/
def weightEntries : List (String × Json) → Nat
  | [] => 1
  | kv :: kvs => Json.weight kv.2 + Json.weightEntries kvs + 1

end

end Json

/-- nlohmann at(key): throws when applied to a non-object or when the key
is absent.  The message texts stand in for the library exception texts. -/
def jAt (j : Json) (k : String) : Except String Json :=
  match j with
  | .obj kvs =>
    match List.lookup k kvs with
    | some v => Except.ok v
    | none => Except.error ("key not found: " ++ k)
  | _ => Except.error "cannot use at() with this type"

/-- nlohmann at(index): throws on a non-array or an out-of-range index. -/
def jIdx (j : Json) (i : Nat) : Except String Json :=
  match j with
  | .arr xs =>
    match xs.get? i with
    | some v => Except.ok v
    | none => Except.error "array index out of range"
  | _ => Except.error "cannot use at() with this type"

/-- nlohmann get of a double: succeeds only on a number node. -/
def asNum : Json → Except String ℚ
  | .num q => Except.ok q
  | _ => Except.error "type must be number"

/-- Monadic map over a list in the Except monad, mirroring the sequential
push_back loops of the source (the first failure aborts the whole loop). -/
def mapME {α β : Type} (g : α → Except String β) : List α → Except String (List β)
  | [] => Except.ok []
  | a :: as => do
    let b ← g a
    let bs ← mapME g as
    Except.ok (b :: bs)

/-- Character-list test: does the first list start with the second. -/
def startsWithB : List Char → List Char → Bool
  | _, [] => true
  | [], _ :: _ => false
  | a :: as, b :: bs => a == b && startsWithB as bs

/-- Character-list substring test. -/
def hasSub (h n : List Char) : Bool :=
  match h with
  | [] => n.isEmpty
  | _ :: t => startsWithB h n || hasSub t n

/-- Substring test (used only in theorem statements about error texts). -/
def strContains (hay needle : String) : Bool :=
  hasSub hay.toList needle.toList

/-! ## Data model

Modelled from the spec: geoson/types.hpp and the concord geometry
primitives are not under src/.  Per spec section 3 a Position is a triple
of doubles, the internal model always stores local planar coordinates,
and the Geometry variant is closed over Point, Line, Path, Polygon. -/

/-- Coordinate-system tag (geoson::CRS in types.hpp, not under src/). -/
inductive CRS where
  | WGS : CRS
  | ENU : CRS
deriving DecidableEq

/-- Modelled from the spec: concord::Datum, the reference point
(lat, lon, alt) anchoring the local tangent-plane frame. -/
structure Datum where
  lat : ℚ
  lon : ℚ
  alt : ℚ

/-- Modelled from the spec: concord::Euler; only yaw is retained by this
system, pitch and roll are fixed at zero.  Constructor argument order in
the source is (roll, pitch, yaw) with yaw passed third. -/
structure Euler where
  roll : ℚ
  pitch : ℚ
  yaw : ℚ

/-- Modelled from the spec: concord::WGS, a geodetic position whose
constructor is latitude-first (lat, lon, alt). -/
structure WGS where
  lat : ℚ
  lon : ℚ
  alt : ℚ

/-- Modelled from the spec: concord::ENU, a local tangent-plane position
(x east, y north, z up). -/
structure ENU where
  x : ℚ
  y : ℚ
  z : ℚ

/-- Modelled from the spec: concord::Point.  Per spec section 3 the
internal model always stores local planar coordinates (x, y, z). -/
structure Point where
  x : ℚ
  y : ℚ
  z : ℚ

/-- Modelled from the spec: concord::Line, exactly two positions
(accessors getStart/getEnd in the source). -/
structure Line where
  start : Point
  stop : Point

/-- Modelled from the spec: concord::Path, an ordered point sequence. -/
structure Path where
  points : List Point

/-- Modelled from the spec: concord::Polygon, the single outer ring. -/
structure Polygon where
  points : List Point

/-- The closed geometry variant of geoson/types.hpp (std::variant over the
four concord shapes). -/
inductive Geometry where
  | point (p : Point) : Geometry
  | line (l : Line) : Geometry
  | path (p : Path) : Geometry
  | polygon (p : Polygon) : Geometry

/-- One geometry plus its attribute mapping (geoson::Feature).  The C++
std::unordered_map is embedded as an association list; no claim depends
on key ordering or duplicate handling. -/
structure Feature where
  geometry : Geometry
  properties : List (String × String)

/-- Modelled from the spec: the default value of the coordinate-system
member of geoson::FeatureCollection in types.hpp (not under src/).  The
spec does not name the default; the parser below never reassigns the
member, so every claim about it holds for either possible value. -/
def defaultCRS : CRS := CRS.WGS

/-- The root aggregate (geoson::FeatureCollection in types.hpp, not under
src/): coordinate-system tag (default-initialized), datum, heading,
features, and collection-level attributes. -/
structure FeatureCollection where
  crs : CRS := defaultCRS
  datum : Datum
  heading : Euler
  features : List Feature
  global_properties : List (String × String)

/-! ## Reader (src/include/geoson/parser.hpp) -/

/-- geoson::op::ReadFeatureCollection (parser.hpp lines 19-44), modulo the
file read: normalizes the parsed document.  A FeatureCollection passes
through, a Feature is wrapped in a synthetic collection, and any other
object with a string type field (a bare geometry) is wrapped in a
synthetic one-feature collection with empty feature properties. -/
def op.ReadFeatureCollection (j : Json) : Except String Json :=
  match j with
  | .obj kvs =>
    match List.lookup "type" kvs with
    | some (.str t) =>
      if t = "FeatureCollection" then Except.ok j
      else if t = "Feature" then
        Except.ok (.obj [("type", .str "FeatureCollection"), ("features", .arr [j])])
      else
        Except.ok (.obj [("type", .str "FeatureCollection"),
          ("features", .arr [.obj [("type", .str "Feature"), ("geometry", j),
                                   ("properties", .obj [])]])])
    | _ => Except.error "top-level object has no string type field"
  | _ => Except.error "top-level object has no string type field"

/-- The value().dump() coercion of parseProperties (parser.hpp line 56):
string values pass through, every other value is serialized to text.  The
exact serialization text for numbers, arrays and objects is abstracted
(no claim inspects it); the string/non-string split is the modelled
behavior. -/
def coerceText : Json → String
  | .str s => s
  | .null => "null"
  | .bool true => "true"
  | .bool false => "false"
  | .num q => toString q
  | .arr _ => "<array>"
  | .obj _ => "<object>"

/-- geoson::parseProperties (parser.hpp lines 49-59). -/
def parseProperties (props : Json) : List (String × String) :=
  props.items.map (fun kv => (kv.1, coerceText kv.2))

/-- geoson::parsePoint (parser.hpp lines 61-77).  The external WGS-to-ENU
projection is a function parameter f (the source delegates to
concord::WGS::toENU).  Under the ENU tag the coordinates pass through;
under the WGS tag the document (lon, lat, alt) order is swapped into the
latitude-first WGS constructor before projecting. -/
def parsePoint (f : WGS → Datum → ENU) (d : Datum) (c : CRS) (coords : Json) :
    Except String Point := do
  let x ← asNum (← jIdx coords 0)
  let y ← asNum (← jIdx coords 1)
  let z ← if 2 < coords.jsize then (jIdx coords 2).bind asNum else Except.ok 0
  match c with
  | CRS.ENU => Except.ok ⟨x, y, z⟩
  | CRS.WGS =>
    let e := f ⟨y, x, z⟩ d
    Except.ok ⟨e.x, e.y, e.z⟩

/-- The size-two test of parseLineString (parser.hpp lines 84-87):
pts.size() == 2 yields Line(pts[0], pts[1]), anything else Path(pts). -/
def mkLineOrPath : List Point → Geometry
  | [a, b] => Geometry.line ⟨a, b⟩
  | ps => Geometry.path ⟨ps⟩

/-- geoson::parseLineString (parser.hpp lines 79-88). -/
def parseLineString (f : WGS → Datum → ENU) (d : Datum) (c : CRS) (coords : Json) :
    Except String Geometry := do
  let pts ← mapME (parsePoint f d c) coords.elements
  Except.ok (mkLineOrPath pts)

/-- geoson::parsePolygon (parser.hpp lines 90-97): only the first ring
(coords.at(0)) is read. -/
def parsePolygon (f : WGS → Datum → ENU) (d : Datum) (c : CRS) (coords : Json) :
    Except String Polygon := do
  let ring ← jIdx coords 0
  let pts ← mapME (parsePoint f d c) ring.elements
  Except.ok ⟨pts⟩

/-- geoson::parseGeometry (parser.hpp lines 99-125), with its recursion
through GeometryCollection made structural on a fuel argument; inl carries
one geometry node, inr the pending node list of a GeometryCollection.
The weight of the node strictly bounds the recursion, so the zero-fuel
branch is unreachable from the wrapper parseGeometry below; the
fuel-irrelevance theorems (parseGeomAux_fuel, pg_geometryCollection)
prove the bound invisible. -/
def parseGeomAux (f : WGS → Datum → ENU) (d : Datum) (c : CRS) :
    Nat → Sum Json (List Json) → Except String (List Geometry)
  | 0, _ => Except.error "geometry nesting exhausted"
  | _ + 1, .inr [] => Except.ok []
  | fuel + 1, .inr (g :: gs) => do
    let a ← parseGeomAux f d c fuel (.inl g)
    let b ← parseGeomAux f d c fuel (.inr gs)
    Except.ok (a ++ b)
  | fuel + 1, .inl geom =>
    match geom with
    | .obj kvs =>
      match List.lookup "type" kvs with
      | some (.str ty) =>
        if ty = "Point" then do
          let coords ← jAt (.obj kvs) "coordinates"
          let p ← parsePoint f d c coords
          Except.ok [Geometry.point p]
        else if ty = "LineString" then do
          let coords ← jAt (.obj kvs) "coordinates"
          let g ← parseLineString f d c coords
          Except.ok [g]
        else if ty = "Polygon" then do
          let coords ← jAt (.obj kvs) "coordinates"
          let pg ← parsePolygon f d c coords
          Except.ok [Geometry.polygon pg]
        else if ty = "MultiPoint" then do
          let coords ← jAt (.obj kvs) "coordinates"
          let ps ← mapME (parsePoint f d c) coords.elements
          Except.ok (ps.map Geometry.point)
        else if ty = "MultiLineString" then do
          let coords ← jAt (.obj kvs) "coordinates"
          mapME (parseLineString f d c) coords.elements
        else if ty = "MultiPolygon" then do
          let coords ← jAt (.obj kvs) "coordinates"
          let pgs ← mapME (parsePolygon f d c) coords.elements
          Except.ok (pgs.map Geometry.polygon)
        else if ty = "GeometryCollection" then do
          let gj ← jAt (.obj kvs) "geometries"
          parseGeomAux f d c fuel (.inr gj.elements)
        else
          Except.ok []
      | some _ => Except.error "type must be string"
      | none => Except.error "key not found: type"
    | _ => Except.error "cannot use at() with this type"

/-- geoson::parseGeometry (parser.hpp lines 99-125). -/
def parseGeometry (f : WGS → Datum → ENU) (d : Datum) (c : CRS) (geom : Json) :
    Except String (List Geometry) :=
  parseGeomAux f d c geom.weight (.inl geom)

/-- The fuel parseGeometry passes for each parseGeomAux argument shape
(see the fuel-irrelevance theorems below). -/
def fuelNeed : Sum Json (List Json) → Nat
  | .inl g => g.weight
  | .inr l => Json.weightList l

/-- geoson::parseCRS (parser.hpp lines 129-135). -/
def parseCRS (s : String) : Except String CRS :=
  if s = "EPSG:4326" ∨ s = "WGS84" ∨ s = "WGS" then Except.ok CRS.WGS
  else if s = "ENU" ∨ s = "ECEF" then Except.ok CRS.ENU
  else Except.error ("Unknown CRS string: " ++ s)

/-- The value("geometry", json) read of the features loop (parser.hpp
line 177): the default null when the key is absent, an exception on a
non-object feature entry. -/
def getGeomField (feat : Json) : Except String Json :=
  match feat with
  | .obj kvs => Except.ok ((List.lookup "geometry" kvs).getD Json.null)
  | _ => Except.error "cannot use value() with this type"

/-- The body of the features loop of geoson::ReadFeatureCollection
(parser.hpp lines 176-183): a feature whose geometry field is null or
absent (value() default) is skipped; otherwise each parsed geometry
becomes a Feature carrying the parsed per-feature properties. -/
def readFeature (f : WGS → Datum → ENU) (d : Datum) (c : CRS) (feat : Json) :
    Except String (List Feature) := do
  let g ← getGeomField feat
  match g with
  | .null => Except.ok []
  | g => do
    let geoms ← parseGeometry f d c g
    let props := parseProperties (match feat with
      | .obj kvs => (List.lookup "properties" kvs).getD (Json.obj [])
      | _ => Json.obj [])
    Except.ok (geoms.map (fun gg => ⟨gg, props⟩))

/-- Message of the crs guard (parser.hpp line 147). -/
def msgCrs : String := "properties missing string crs"

/-- Message of the datum guard (parser.hpp line 149). -/
def msgDatum : String := "properties missing array datum of >=3 numbers"

/-- Message of the heading guard (parser.hpp line 151). -/
def msgHeading : String := "properties missing numeric heading"

/-- View of the normalized document as an object (always succeeds on the
output of op.ReadFeatureCollection; the error text is the one the
properties guard would raise on a non-object). -/
def getObjEntries (j : Json) : Except String (List (String × Json)) :=
  match j with
  | .obj kvs => Except.ok kvs
  | _ => Except.error "missing top-level properties"

/-- The properties guard of ReadFeatureCollection (parser.hpp lines
142-144): the document must contain a top-level properties object. -/
def getProps (fkvs : List (String × Json)) : Except String (List (String × Json)) :=
  match List.lookup "properties" fkvs with
  | some (.obj pk) => Except.ok pk
  | _ => Except.error "missing top-level properties"

/-- The crs guard of ReadFeatureCollection (parser.hpp lines 146-147). -/
def getCrsStr (pkvs : List (String × Json)) : Except String String :=
  match List.lookup "crs" pkvs with
  | some (.str s) => Except.ok s
  | _ => Except.error msgCrs

/-- The datum guard of ReadFeatureCollection (parser.hpp lines 148-149):
datum must be an array of length at least 3 (the elements themselves are
not checked here; they are converted later, lines 155-156). -/
def getDatumArr (pkvs : List (String × Json)) : Except String (List Json) :=
  match List.lookup "datum" pkvs with
  | some (.arr ds) => if 3 ≤ ds.length then Except.ok ds else Except.error msgDatum
  | _ => Except.error msgDatum

/-- The heading guard of ReadFeatureCollection (parser.hpp lines
150-151, with the extraction of line 157, which the guard makes safe). -/
def getHeadingNum (pkvs : List (String × Json)) : Except String ℚ :=
  match List.lookup "heading" pkvs with
  | some (.num q) => Except.ok q
  | _ => Except.error msgHeading

/-- geoson::ReadFeatureCollection (parser.hpp lines 139-186), modulo the
file read: normalize the document, validate properties.crs/datum/heading,
resolve the CRS tag, build datum and heading, collect the non-reserved
top-level properties, and expand every feature entry.  The crs member of
the result is never assigned (as in the source) and keeps its default. -/
def ReadFeatureCollection (f : WGS → Datum → ENU) (doc : Json) :
    Except String FeatureCollection := do
  let fcj ← op.ReadFeatureCollection doc
  let fkvs ← getObjEntries fcj
  let pkvs ← getProps fkvs
  let crsStr ← getCrsStr pkvs
  let datumArr ← getDatumArr pkvs
  let yaw ← getHeadingNum pkvs
  let crsVal ← parseCRS crsStr
  let la ← asNum (datumArr.getD 0 Json.null)
  let lo ← asNum (datumArr.getD 1 Json.null)
  let al ← asNum (datumArr.getD 2 Json.null)
  let d : Datum := ⟨la, lo, al⟩
  let globals := (pkvs.filter
      (fun kv => !(kv.1 == "crs") && !(kv.1 == "datum") && !(kv.1 == "heading"))).map
    (fun kv => (kv.1, coerceText kv.2))
  let featsJson := (List.lookup "features" fkvs).getD Json.null
  let featLists ← mapME (readFeature f d crsVal) featsJson.elements
  Except.ok { datum := d, heading := ⟨0, 0, yaw⟩,
              features := featLists.flatten, global_properties := globals }

/-! ## Writer (src/include/geoson/writter.hpp) -/

/-- The ptCoords helper of geoson::geometryToJson (writter.hpp lines
14-16): builds the [lon, lat, alt] slot array of one stored position.  The
source reads the position through the wgs accessor of concord::Point; per
spec sections 3 and 4.3 the stored coordinates are the local planar
(x, y, z) and they are emitted unchanged into those slots, with no inverse
transform (concord::Point is external to src/). -/
def ptCoords (p : Point) : Json := .arr [.num p.x, .num p.y, .num p.z]

/-- geoson::geometryToJson (writter.hpp lines 12-46). -/
def geometryToJson : Geometry → Json
  | .point p => .obj [("type", .str "Point"), ("coordinates", ptCoords p)]
  | .line l => .obj [("type", .str "LineString"),
      ("coordinates", .arr [ptCoords l.start, ptCoords l.stop])]
  | .path pa => .obj [("type", .str "LineString"),
      ("coordinates", .arr (pa.points.map ptCoords))]
  | .polygon po => .obj [("type", .str "Polygon"),
      ("coordinates", .arr [.arr (po.points.map ptCoords)])]

/-- geoson::featureToJson (writter.hpp lines 49-57). -/
def featureToJson (ft : Feature) : Json :=
  .obj [("type", .str "Feature"),
        ("properties", .obj (ft.properties.map (fun kv => (kv.1, Json.str kv.2)))),
        ("geometry", geometryToJson ft.geometry)]

/-- geoson::toJson (writter.hpp lines 60-92): the crs tag is re-encoded to
its canonical alias, datum and heading are re-emitted, global attributes
are not, and each feature is serialized by featureToJson. -/
def toJson (fc : FeatureCollection) : Json :=
  .obj [("type", .str "FeatureCollection"),
        ("properties", .obj
          [("crs", .str (match fc.crs with
            | CRS.WGS => "EPSG:4326"
            | CRS.ENU => "ENU")),
           ("datum", .arr [.num fc.datum.lat, .num fc.datum.lon, .num fc.datum.alt]),
           ("heading", .num fc.heading.yaw)]),
        ("features", .arr (fc.features.map featureToJson))]

/-! ## Fixtures for witness theorems -/

/-- A concrete stand-in for the external WGS-to-ENU projection, used only
by witness theorems (a flat tangent-plane difference; every claim theorem
holds for an arbitrary projection function). -/
def flatTf (w : WGS) (d : Datum) : ENU :=
  ⟨w.lon - d.lon, w.lat - d.lat, w.alt - d.alt⟩

/-- Datum fixture for witnesses. -/
def d0 : Datum := ⟨0, 0, 0⟩

/-! ## Canonical simple inputs for the round-trip claim -/

/-- A position node in canonical simple form: an array of exactly three
numbers (the fragment of inputs quantified over by the round-trip claim;
two-number positions round-trip with a synthesized zero altitude and are
therefore excluded from the exact-reproduction statement). -/
def simplePos : Json → Bool
  | .arr [.num _, .num _, .num _] => true
  | _ => false

/-- A geometry node in canonical simple form: Point, LineString, or
single-ring Polygon, with every position in simple form. -/
def simpleGeomJson : Json → Bool
  | .obj kvs =>
    (match List.lookup "type" kvs, List.lookup "coordinates" kvs with
     | some (.str "Point"), some pos => simplePos pos
     | some (.str "LineString"), some (.arr ps) => ps.all simplePos
     | some (.str "Polygon"), some (.arr [.arr ring]) => ring.all simplePos
     | _, _ => false)
  | _ => false

/-- A feature entry in canonical simple form. -/
def simpleFeat : Json → Bool
  | .obj kvs =>
    (match List.lookup "geometry" kvs with
     | some gj => simpleGeomJson gj
     | none => false)
  | _ => false

/-- The geometry node of a feature entry. -/
def featGeomJson : Json → Json
  | .obj kvs => (List.lookup "geometry" kvs).getD .null
  | _ => .null

/-- The type string of a geometry node. -/
def geomTypeOf : Json → String
  | .obj kvs =>
    (match List.lookup "type" kvs with
     | some (.str s) => s
     | _ => "")
  | _ => ""

/-- The coordinates value of a geometry node. -/
def geomCoordsOf : Json → Json
  | .obj kvs => (List.lookup "coordinates" kvs).getD .null
  | _ => .null

/-! ## Spec-side definitions and concrete fixtures for the claims -/

/-- The coordinate payload the claim about the Writer says is emitted:
for every variant, each stored position unchanged, its local planar
(x, y, z) placed into the (lon, lat, alt) slots.  Written from the words
of the claim, to be compared with the writer definition. -/
def localCoordsSpec : Geometry → Json
  | .point p => .arr [.num p.x, .num p.y, .num p.z]
  | .line l => .arr [.arr [.num l.start.x, .num l.start.y, .num l.start.z],
                     .arr [.num l.stop.x, .num l.stop.y, .num l.stop.z]]
  | .path pa => .arr (pa.points.map (fun p => .arr [.num p.x, .num p.y, .num p.z]))
  | .polygon po =>
    .arr [.arr (po.points.map (fun p => .arr [.num p.x, .num p.y, .num p.z]))]

/-- The crs guard condition (field present with string type). -/
def crsOK (pkvs : List (String × Json)) : Prop :=
  ∃ s, List.lookup "crs" pkvs = some (.str s)

/-- The datum guard condition (field present, array, length at least 3),
exactly what parser.hpp line 148 checks. -/
def datumOK (pkvs : List (String × Json)) : Prop :=
  ∃ ds, List.lookup "datum" pkvs = some (.arr ds) ∧ 3 ≤ ds.length

/-- The heading guard condition (field present with number type). -/
def headingOK (pkvs : List (String × Json)) : Prop :=
  ∃ q, List.lookup "heading" pkvs = some (.num q)

/-- A two-point LineString coordinate array (witness input). -/
def lsSample : Json := .arr [.arr [.num 1, .num 2, .num 3],
                             .arr [.num 4, .num 5, .num 6]]

/-- Witness feature: a Point. -/
def rtFeature1 : Json := .obj [("geometry", .obj [("type", .str "Point"),
  ("coordinates", .arr [.num 1, .num 2, .num 3])]),
  ("properties", .obj [("name", .str "pt")])]

/-- Witness feature: a two-point LineString (imported as a Line). -/
def rtFeature2 : Json := .obj [("geometry", .obj [("type", .str "LineString"),
  ("coordinates", .arr [.arr [.num 1, .num 1, .num 0],
                        .arr [.num 2, .num 2, .num 0]])])]

/-- Witness feature: a three-point LineString (imported as a Path). -/
def rtFeature3 : Json := .obj [("geometry", .obj [("type", .str "LineString"),
  ("coordinates", .arr [.arr [.num 0, .num 0, .num 0], .arr [.num 1, .num 0, .num 0],
                        .arr [.num 1, .num 1, .num 0]])])]

/-- Witness feature: a single-ring Polygon. -/
def rtFeature4 : Json := .obj [("geometry", .obj [("type", .str "Polygon"),
  ("coordinates", .arr [.arr [.arr [.num 0, .num 0, .num 0],
                              .arr [.num 4, .num 0, .num 0],
                              .arr [.num 4, .num 4, .num 0],
                              .arr [.num 0, .num 0, .num 0]]])])]

/-- Witness collection properties, ENU-tagged. -/
def rtProps : List (String × Json) := [("crs", .str "ENU"),
  ("datum", .arr [.num 5, .num 6, .num 7]), ("heading", .num 1)]

/-- Witness ENU-tagged document entries. -/
def rtDkvs : List (String × Json) := [("type", .str "FeatureCollection"),
  ("properties", .obj rtProps),
  ("features", .arr [rtFeature1, rtFeature2, rtFeature3, rtFeature4])]

/-- Witness properties with heading absent. -/
def c4wProps : List (String × Json) := [("crs", .str "ENU"),
  ("datum", .arr [.num 0, .num 0, .num 0])]

/-- Witness document entries with heading absent. -/
def c4wFkvs : List (String × Json) := [("type", .str "FeatureCollection"),
  ("properties", .obj c4wProps)]

/-- Counterexample document: the datum guard passes (array of length 3)
but the elements are strings, so the later numeric conversion throws a
generic type error that does not name the field. -/
def c4BadDatumDoc : Json := .obj [("type", .str "FeatureCollection"),
  ("properties", .obj [("crs", .str "ENU"),
                       ("datum", .arr [.str "a", .str "b", .str "c"]),
                       ("heading", .num 0)]),
  ("features", .arr [])]

/-- The bare-geometry document of the spec example. -/
def bareGeomDoc : Json := .obj [("type", .str "Point"),
  ("coordinates", .arr [.num 0, .num 0, .num 0])]

/-- The bare-geometry document with the collection-level properties of
the spec example placed inside the geometry object (the only place a
bare-geometry document could carry them). -/
def bareGeomDocWithProps : Json := .obj [("type", .str "Point"),
  ("coordinates", .arr [.num 0, .num 0, .num 0]),
  ("properties", .obj [("crs", .str "EPSG:4326"),
                       ("datum", .arr [.num 0, .num 0, .num 0]),
                       ("heading", .num 0)])]

/-- An ENU-tagged document with no features (fixture). -/
def emptyDocENU : Json := .obj [("type", .str "FeatureCollection"),
  ("properties", .obj [("crs", .str "ENU"), ("datum", .arr [.num 1, .num 2, .num 3]),
                       ("heading", .num 0)]),
  ("features", .arr [])]

/-- A WGS-tagged document with no features (fixture). -/
def emptyDocWGS : Json := .obj [("type", .str "FeatureCollection"),
  ("properties", .obj [("crs", .str "WGS84"), ("datum", .arr [.num 4, .num 5, .num 6]),
                       ("heading", .num 9)]),
  ("features", .arr [])]

/-- The collection emptyDocENU imports to. -/
def fcA : FeatureCollection :=
  { datum := ⟨1, 2, 3⟩, heading := ⟨0, 0, 0⟩, features := [], global_properties := [] }

/-- The collection emptyDocWGS imports to. -/
def fcB : FeatureCollection :=
  { datum := ⟨4, 5, 6⟩, heading := ⟨0, 0, 9⟩, features := [], global_properties := [] }

/-! ## Helper lemmas on the Except monad and the parser -/

@[simp]
theorem ok_bind {ε α β : Type} (a : α) (g : α → Except ε β) :
    (Except.ok a >>= g) = g a := rfl

@[simp]
theorem error_bind {ε α β : Type} (e : ε) (g : α → Except ε β) :
    ((Except.error e : Except ε α) >>= g) = Except.error e := rfl

theorem exbind_ok {ε α β : Type} {x : Except ε α} {g : α → Except ε β} {b : β}
    (h : (x >>= g) = Except.ok b) : ∃ a, x = Except.ok a ∧ g a = Except.ok b := by
  cases x with
  | ok a => exact ⟨a, rfl, h⟩
  | error e => exact absurd h (by simp)

theorem mapME_ok_length {α β : Type} {g : α → Except String β} {l : List α} {r : List β}
    (h : mapME g l = Except.ok r) : r.length = l.length := by
  induction l generalizing r with
  | nil => simp [mapME] at h; simp [← h]
  | cons a as ih =>
    simp only [mapME] at h
    obtain ⟨b, hb, h⟩ := exbind_ok h
    obtain ⟨bs, hbs, h⟩ := exbind_ok h
    cases h
    simp [ih hbs]

theorem weight_obj (kvs : List (String × Json)) :
    Json.weight (.obj kvs) = Json.weightEntries kvs + 1 := by
  simp [Json.weight]

theorem parseGeometry_obj (f : WGS → Datum → ENU) (d : Datum) (c : CRS)
    (kvs : List (String × Json)) :
    parseGeometry f d c (.obj kvs)
      = parseGeomAux f d c (Json.weightEntries kvs + 1) (.inl (.obj kvs)) := by
  rw [parseGeometry, weight_obj]

/-- parseGeometry on a Point node delegates to parsePoint. -/
theorem pg_point (f : WGS → Datum → ENU) (d : Datum) (c : CRS)
    (kvs : List (String × Json)) (coords : Json)
    (ht : List.lookup "type" kvs = some (.str "Point"))
    (hc : List.lookup "coordinates" kvs = some coords) :
    parseGeometry f d c (.obj kvs)
      = (parsePoint f d c coords).map (fun p => [Geometry.point p]) := by
  rw [parseGeometry_obj]
  simp only [parseGeomAux, ht, hc, jAt, reduceIte, ok_bind]
  cases parsePoint f d c coords <;> rfl

/-- parseGeometry on a LineString node delegates to parseLineString. -/
theorem pg_lineString (f : WGS → Datum → ENU) (d : Datum) (c : CRS)
    (kvs : List (String × Json)) (coords : Json)
    (ht : List.lookup "type" kvs = some (.str "LineString"))
    (hc : List.lookup "coordinates" kvs = some coords) :
    parseGeometry f d c (.obj kvs)
      = (parseLineString f d c coords).map (fun g => [g]) := by
  rw [parseGeometry_obj]
  simp only [parseGeomAux, ht, hc, jAt, reduceIte, String.reduceEq, ok_bind]
  cases parseLineString f d c coords <;> rfl

/-- parseGeometry on a Polygon node delegates to parsePolygon. -/
theorem pg_polygon (f : WGS → Datum → ENU) (d : Datum) (c : CRS)
    (kvs : List (String × Json)) (coords : Json)
    (ht : List.lookup "type" kvs = some (.str "Polygon"))
    (hc : List.lookup "coordinates" kvs = some coords) :
    parseGeometry f d c (.obj kvs)
      = (parsePolygon f d c coords).map (fun pg => [Geometry.polygon pg]) := by
  rw [parseGeometry_obj]
  simp only [parseGeomAux, ht, hc, jAt, reduceIte, String.reduceEq, ok_bind]
  cases parsePolygon f d c coords <;> rfl

/-- parseGeometry on a MultiPolygon node maps parsePolygon over the
iterated coordinate sub-arrays. -/
theorem pg_multiPolygon (f : WGS → Datum → ENU) (d : Datum) (c : CRS)
    (kvs : List (String × Json)) (coords : Json)
    (ht : List.lookup "type" kvs = some (.str "MultiPolygon"))
    (hc : List.lookup "coordinates" kvs = some coords) :
    parseGeometry f d c (.obj kvs)
      = (mapME (parsePolygon f d c) coords.elements).map (List.map Geometry.polygon) := by
  rw [parseGeometry_obj]
  simp only [parseGeomAux, ht, hc, jAt, reduceIte, String.reduceEq, ok_bind]
  cases mapME (parsePolygon f d c) coords.elements <;> rfl

/-- parseGeometry on a MultiLineString node maps parseLineString over the
iterated coordinate sub-arrays. -/
theorem pg_multiLineString (f : WGS → Datum → ENU) (d : Datum) (c : CRS)
    (kvs : List (String × Json)) (coords : Json)
    (ht : List.lookup "type" kvs = some (.str "MultiLineString"))
    (hc : List.lookup "coordinates" kvs = some coords) :
    parseGeometry f d c (.obj kvs)
      = mapME (parseLineString f d c) coords.elements := by
  rw [parseGeometry_obj]
  simp only [parseGeomAux, ht, hc, jAt, reduceIte, String.reduceEq, ok_bind]

/-- parseGeometry on a node whose type is none of the seven recognized
names produces no geometries and no error. -/
theorem pg_unknown (f : WGS → Datum → ENU) (d : Datum) (c : CRS)
    (kvs : List (String × Json)) (ty : String)
    (ht : List.lookup "type" kvs = some (.str ty))
    (hu : ty ∉ (["Point", "LineString", "Polygon", "MultiPoint", "MultiLineString",
                 "MultiPolygon", "GeometryCollection"] : List String)) :
    parseGeometry f d c (.obj kvs) = Except.ok [] := by
  simp only [List.mem_cons, List.mem_singleton, not_or] at hu
  obtain ⟨h1, h2, h3, h4, h5, h6, h7⟩ := hu
  rw [parseGeometry_obj]
  simp only [parseGeomAux, ht, h1, h2, h3, h4, h5, h6, h7, if_false, reduceIte]

/-! ## Weight bounds and fuel irrelevance of the geometry recursion -/

theorem weight_pos (j : Json) : 1 ≤ j.weight := by
  cases j <;> simp [Json.weight]

theorem weightList_pos (l : List Json) : 1 ≤ Json.weightList l := by
  cases l <;> simp [Json.weightList]

theorem weightEntries_pos (kvs : List (String × Json)) : 1 ≤ Json.weightEntries kvs := by
  cases kvs <;> simp [Json.weightEntries]

theorem lookup_weight_le {kvs : List (String × Json)} {k : String} {v : Json}
    (h : List.lookup k kvs = some v) : v.weight + 2 ≤ Json.weightEntries kvs := by
  induction kvs with
  | nil => simp [List.lookup] at h
  | cons kv rest ih =>
    simp only [List.lookup] at h
    split at h
    · cases h
      have := weightEntries_pos rest
      simp only [Json.weightEntries]
      omega
    · have := ih h
      have := weight_pos kv.2
      simp only [Json.weightEntries]
      omega

theorem weightList_values_le (kvs : List (String × Json)) :
    Json.weightList (kvs.map (fun kv => kv.2)) ≤ Json.weightEntries kvs := by
  induction kvs with
  | nil => simp [Json.weightList, Json.weightEntries]
  | cons kv rest ih =>
    simp only [List.map, Json.weightList, Json.weightEntries]
    omega

theorem elements_weightList_le (j : Json) :
    Json.weightList j.elements ≤ j.weight + 2 := by
  cases j with
  | arr xs => simp [Json.elements, Json.weight]; omega
  | obj kvs =>
    have := weightList_values_le kvs
    simp only [Json.elements, Json.weight]
    omega
  | null => simp [Json.elements, Json.weightList, Json.weight]
  | bool b => simp [Json.elements, Json.weightList, Json.weight]
  | num q => simp [Json.elements, Json.weightList, Json.weight]
  | str s => simp [Json.elements, Json.weightList, Json.weight]

theorem fuelNeed_pos (x : Sum Json (List Json)) : 1 ≤ fuelNeed x := by
  cases x with
  | inl g => exact weight_pos g
  | inr l => exact weightList_pos l

/-- Any fuel at least the weight of the argument gives the same result as
the canonical fuel: the fuel bound of parseGeometry is invisible. -/
theorem parseGeomAux_fuel (f : WGS → Datum → ENU) (d : Datum) (c : CRS) :
    ∀ (n : Nat) (x : Sum Json (List Json)), fuelNeed x ≤ n →
      parseGeomAux f d c n x = parseGeomAux f d c (fuelNeed x) x := by
  intro n
  induction n using Nat.strong_induction_on with
  | _ n ih =>
    intro x hx
    match n, x with
    | 0, x => exact absurd (le_trans (fuelNeed_pos x) hx) (by omega)
    | n + 1, .inr [] =>
      simp [fuelNeed, Json.weightList, parseGeomAux]
    | n + 1, .inr (g :: gs) =>
      have hb : Json.weight g + Json.weightList gs + 1 ≤ n + 1 := hx
      have h1 : Json.weight g ≤ n := by omega
      have h2 : Json.weightList gs ≤ n := by omega
      have h3 : Json.weight g + Json.weightList gs < n + 1 := by omega
      simp only [fuelNeed, Json.weightList, parseGeomAux]
      rw [ih n (by omega) (.inl g) h1,
          ih n (by omega) (.inr gs) h2,
          ih (Json.weight g + Json.weightList gs) h3 (.inl g)
            (by simp only [fuelNeed]; omega),
          ih (Json.weight g + Json.weightList gs) h3 (.inr gs)
            (by simp only [fuelNeed]; omega)]
    | n + 1, .inl (Json.null) => rfl
    | n + 1, .inl (Json.bool b) => rfl
    | n + 1, .inl (Json.num q) => rfl
    | n + 1, .inl (Json.str s) => rfl
    | n + 1, .inl (Json.arr xs) => rfl
    | n + 1, .inl (Json.obj kvs) =>
      have hb : Json.weightEntries kvs + 1 ≤ n + 1 := by
        have := hx
        simp only [fuelNeed, Json.weight] at this
        exact this
      simp only [fuelNeed, weight_obj, parseGeomAux]
      cases hty : List.lookup "type" kvs with
      | none => rfl
      | some v =>
        cases v with
        | str ty =>
          dsimp only
          by_cases hgc : ty = "GeometryCollection"
          · subst hgc
            simp only [reduceIte]
            cases hgj : List.lookup "geometries" kvs with
            | none => simp [jAt, hgj]
            | some gj =>
              simp only [jAt, hgj, ok_bind]
              have hwgj := lookup_weight_le hgj
              have hwel := elements_weightList_le gj
              have hel : Json.weightList gj.elements ≤ Json.weightEntries kvs := by omega
              rw [ih n (by omega) (.inr gj.elements)
                    (by simp only [fuelNeed]; omega),
                  ih (Json.weightEntries kvs) (by omega) (.inr gj.elements)
                    (by simp only [fuelNeed]; exact hel)]
          · split_ifs <;> rfl
        | null => rfl
        | bool b => rfl
        | num q => rfl
        | arr xs => rfl
        | obj o => rfl

/-- Iterating a node list parses each node with the plain wrapper and
concatenates, exactly the GeometryCollection loop of the source. -/
theorem parseGeomAux_inr (f : WGS → Datum → ENU) (d : Datum) (c : CRS) (l : List Json) :
    parseGeomAux f d c (Json.weightList l) (.inr l)
      = (mapME (parseGeometry f d c) l).map List.flatten := by
  induction l with
  | nil => rfl
  | cons g gs ih =>
    simp only [Json.weightList, parseGeomAux]
    rw [parseGeomAux_fuel f d c _ (.inl g) (by simp only [fuelNeed]; omega),
        parseGeomAux_fuel f d c _ (.inr gs) (by simp only [fuelNeed]; omega)]
    show (do
      let a ← parseGeometry f d c g
      let b ← parseGeomAux f d c (Json.weightList gs) (.inr gs)
      Except.ok (a ++ b)) = _
    rw [ih]
    simp only [mapME]
    cases parseGeometry f d c g with
    | error e => rfl
    | ok b =>
      simp only [ok_bind]
      cases mapME (parseGeometry f d c) gs with
      | error e => rfl
      | ok bs => simp [Except.map]

/-- parseGeometry satisfies the GeometryCollection recursion of the
source verbatim: each sub-node of the iterated geometries value is parsed
by parseGeometry itself and the results are concatenated in order (the
fuel bound of the embedding is invisible). -/
theorem pg_geometryCollection (f : WGS → Datum → ENU) (d : Datum) (c : CRS)
    (kvs : List (String × Json)) (gj : Json)
    (ht : List.lookup "type" kvs = some (.str "GeometryCollection"))
    (hg : List.lookup "geometries" kvs = some gj) :
    parseGeometry f d c (.obj kvs)
      = (mapME (parseGeometry f d c) gj.elements).map List.flatten := by
  rw [parseGeometry_obj]
  simp only [parseGeomAux, ht, reduceIte, String.reduceEq, jAt, hg, ok_bind]
  rw [parseGeomAux_fuel f d c _ (.inr gj.elements)
        (by simp only [fuelNeed]
            have h1 := lookup_weight_le hg
            have h2 := elements_weightList_le gj
            omega)]
  exact parseGeomAux_inr f d c gj.elements

/-! ## Round-trip lemmas (ENU tag: positions pass through both ways) -/

theorem roundPos (f : WGS → Datum → ENU) (d : Datum) {pos : Json}
    (hs : simplePos pos = true) :
    ∃ p : Point, parsePoint f d CRS.ENU pos = Except.ok p ∧ ptCoords p = pos := by
  match pos, hs with
  | .arr [.num a, .num b, .num e], _ => exact ⟨⟨a, b, e⟩, rfl, rfl⟩

theorem roundList (f : WGS → Datum → ENU) (d : Datum) {ps : List Json}
    (hs : ps.all simplePos = true) :
    ∃ pts : List Point, mapME (parsePoint f d CRS.ENU) ps = Except.ok pts
      ∧ pts.map ptCoords = ps := by
  induction ps with
  | nil => exact ⟨[], rfl, rfl⟩
  | cons p ps ih =>
    simp only [List.all_cons, Bool.and_eq_true] at hs
    obtain ⟨pt, hpt, hround⟩ := roundPos f d hs.1
    obtain ⟨pts, hpts, hmap⟩ := ih hs.2
    exact ⟨pt :: pts, by simp [mapME, hpt, hpts], by simp [hround, hmap]⟩

theorem geometryToJson_mkLineOrPath (pts : List Point) :
    geometryToJson (mkLineOrPath pts)
      = .obj [("type", .str "LineString"), ("coordinates", .arr (pts.map ptCoords))] := by
  rcases pts with _ | ⟨a, _ | ⟨b, _ | ⟨e, t⟩⟩⟩ <;> rfl

theorem roundGeom (f : WGS → Datum → ENU) (d : Datum) {gj : Json}
    (hs : simpleGeomJson gj = true) :
    ∃ gg, parseGeometry f d CRS.ENU gj = Except.ok [gg]
      ∧ geometryToJson gg
          = .obj [("type", .str (geomTypeOf gj)), ("coordinates", geomCoordsOf gj)] := by
  match gj with
  | .obj kvs =>
    simp only [simpleGeomJson] at hs
    split at hs
    case _ pos ht hc =>
      obtain ⟨p, hp, hround⟩ := roundPos f d hs
      refine ⟨Geometry.point p, ?_, ?_⟩
      · rw [pg_point f d CRS.ENU kvs pos ht hc, hp]; rfl
      · simp [geometryToJson, hround, geomTypeOf, geomCoordsOf, ht, hc]
    case _ ps ht hc =>
      obtain ⟨pts, hpts, hmap⟩ := roundList f d hs
      refine ⟨mkLineOrPath pts, ?_, ?_⟩
      · rw [pg_lineString f d CRS.ENU kvs _ ht hc]
        simp [parseLineString, Json.elements, hpts, Except.map]
      · rw [geometryToJson_mkLineOrPath, hmap]
        simp [geomTypeOf, geomCoordsOf, ht, hc]
    case _ ring ht hc =>
      obtain ⟨pts, hpts, hmap⟩ := roundList f d hs
      refine ⟨Geometry.polygon ⟨pts⟩, ?_, ?_⟩
      · rw [pg_polygon f d CRS.ENU kvs _ ht hc]
        simp [parsePolygon, jIdx, Json.elements, hpts, Except.map]
      · simp [geometryToJson, hmap, geomTypeOf, geomCoordsOf, ht, hc]
    case _ => exact absurd hs (by simp)

theorem simpleGeom_is_obj {gj : Json} (hs : simpleGeomJson gj = true) :
    ∃ gkvs, gj = .obj gkvs := by
  match gj, hs with
  | .obj gkvs, _ => exact ⟨gkvs, rfl⟩

theorem roundFeat (f : WGS → Datum → ENU) (d : Datum) {fj : Json}
    (hs : simpleFeat fj = true) :
    ∃ ft : Feature, readFeature f d CRS.ENU fj = Except.ok [ft]
      ∧ geometryToJson ft.geometry
          = .obj [("type", .str (geomTypeOf (featGeomJson fj))),
                  ("coordinates", geomCoordsOf (featGeomJson fj))] := by
  match fj with
  | .obj kvs =>
    simp only [simpleFeat] at hs
    split at hs
    case _ gj hg =>
      obtain ⟨gkvs, rfl⟩ := simpleGeom_is_obj hs
      obtain ⟨gg, hgg, hout⟩ := roundGeom f d hs
      refine ⟨⟨gg, parseProperties ((List.lookup "properties" kvs).getD (Json.obj []))⟩,
        ?_, ?_⟩
      · simp only [readFeature, getGeomField, hg, Option.getD, ok_bind, hgg]
        rfl
      · simpa [featGeomJson, hg] using hout
    case _ => exact absurd hs (by simp)

theorem roundFeats (f : WGS → Datum → ENU) (d : Datum) {feats : List Json}
    (hs : feats.all simpleFeat = true) :
    ∃ ftss : List (List Feature), mapME (readFeature f d CRS.ENU) feats = Except.ok ftss
      ∧ ftss.flatten.map (fun ft => geometryToJson ft.geometry)
          = feats.map (fun fj => Json.obj
              [("type", .str (geomTypeOf (featGeomJson fj))),
               ("coordinates", geomCoordsOf (featGeomJson fj))]) := by
  induction feats with
  | nil => exact ⟨[], rfl, rfl⟩
  | cons fj feats ih =>
    simp only [List.all_cons, Bool.and_eq_true] at hs
    obtain ⟨ft, hft, hout⟩ := roundFeat f d hs.1
    obtain ⟨ftss, hftss, hmap⟩ := ih hs.2
    exact ⟨[ft] :: ftss, by simp [mapME, hft, hftss], by simp [hout, hmap]⟩

/-! ## Guard error lemmas (for the error-handling claims) -/

theorem getCrsStr_err {pkvs : List (String × Json)} (h : ¬ crsOK pkvs) :
    getCrsStr pkvs = Except.error msgCrs := by
  unfold getCrsStr
  split
  next s hs => exact absurd ⟨s, hs⟩ h
  next => rfl

theorem getDatumArr_err {pkvs : List (String × Json)} (h : ¬ datumOK pkvs) :
    getDatumArr pkvs = Except.error msgDatum := by
  unfold getDatumArr
  split
  next ds hds =>
    rw [if_neg]
    intro hlen
    exact h ⟨ds, hds, hlen⟩
  next => rfl

theorem getHeadingNum_err {pkvs : List (String × Json)} (h : ¬ headingOK pkvs) :
    getHeadingNum pkvs = Except.error msgHeading := by
  unfold getHeadingNum
  split
  next q hq => exact absurd ⟨q, hq⟩ h
  next => rfl

/-- Every successful import leaves the crs member of the result at its
default value: the source constructs the collection and assigns datum,
heading, features, and global properties, but never the crs member. -/
theorem read_ok_crs {f : WGS → Datum → ENU} {doc : Json} {fc : FeatureCollection}
    (h : ReadFeatureCollection f doc = Except.ok fc) : fc.crs = defaultCRS := by
  simp only [ReadFeatureCollection] at h
  obtain ⟨fcj, h1, h⟩ := exbind_ok h
  obtain ⟨fkvs, h2, h⟩ := exbind_ok h
  obtain ⟨pkvs, h3, h⟩ := exbind_ok h
  obtain ⟨crsStr, h4, h⟩ := exbind_ok h
  obtain ⟨datumArr, h5, h⟩ := exbind_ok h
  obtain ⟨yaw, h6, h⟩ := exbind_ok h
  obtain ⟨crsVal, h7, h⟩ := exbind_ok h
  obtain ⟨la, h8, h⟩ := exbind_ok h
  obtain ⟨lo, h9, h⟩ := exbind_ok h
  obtain ⟨al, h10, h⟩ := exbind_ok h
  obtain ⟨featLists, h11, h⟩ := exbind_ok h
  cases h
  rfl

/-! ## Claim theorems -/

/-- C1: importing an ENU-tagged document and exporting it reproduces, for
every feature in canonical simple form (Point, LineString, single-ring
Polygon, three-number positions), the same geometry type string and the
identical coordinates value (hence the same point count and coordinate
values), since no transform is applied in either direction for local
coordinates. -/
theorem enu_roundtrip_geometry (f : WGS → Datum → ENU)
    (dkvs pkvs : List (String × Json)) (cs : String) (a b e : ℚ)
    (ds' : List Json) (hw : ℚ) (feats : List Json)
    (ht : List.lookup "type" dkvs = some (.str "FeatureCollection"))
    (hp : List.lookup "properties" dkvs = some (.obj pkvs))
    (hc : List.lookup "crs" pkvs = some (.str cs))
    (hcs : cs = "ENU" ∨ cs = "ECEF")
    (hd : List.lookup "datum" pkvs = some (.arr (.num a :: .num b :: .num e :: ds')))
    (hh : List.lookup "heading" pkvs = some (.num hw))
    (hf : List.lookup "features" dkvs = some (.arr feats))
    (hsimple : feats.all simpleFeat = true) :
    ∃ fc, ReadFeatureCollection f (.obj dkvs) = Except.ok fc
      ∧ jAt (toJson fc) "features" = Except.ok (.arr (fc.features.map featureToJson))
      ∧ (∀ ft : Feature, jAt (featureToJson ft) "geometry"
            = Except.ok (geometryToJson ft.geometry))
      ∧ fc.features.map (fun ft => geometryToJson ft.geometry)
          = feats.map (fun fj => Json.obj
              [("type", .str (geomTypeOf (featGeomJson fj))),
               ("coordinates", geomCoordsOf (featGeomJson fj))]) := by
  have hop : op.ReadFeatureCollection (.obj dkvs) = Except.ok (.obj dkvs) := by
    simp [op.ReadFeatureCollection, ht]
  have hcrs : parseCRS cs = Except.ok CRS.ENU := by
    rcases hcs with h | h <;> subst h <;> rfl
  obtain ⟨ftss, hftss, hmap⟩ := roundFeats f ⟨a, b, e⟩ hsimple
  have hread : ReadFeatureCollection f (.obj dkvs) = Except.ok
      { datum := ⟨a, b, e⟩, heading := ⟨0, 0, hw⟩, features := ftss.flatten,
        global_properties := (pkvs.filter
            (fun kv => !(kv.1 == "crs") && !(kv.1 == "datum") && !(kv.1 == "heading"))).map
          (fun kv => (kv.1, coerceText kv.2)) } := by
    simp only [ReadFeatureCollection, hop, ok_bind, getObjEntries, getProps, hp,
      getCrsStr, hc, getDatumArr, hd, getHeadingNum, hh, hcrs]
    simp only [List.length_cons, show (3:Nat) ≤ ds'.length + 1 + 1 + 1 by omega,
      if_true, ok_bind]
    simp only [List.getD, List.get?, Option.getD, asNum, ok_bind, hf, Json.elements, hftss]
  exact ⟨_, hread, rfl, fun ft => rfl, hmap⟩

/-- C1 witness: a concrete ENU-tagged collection with a Point, a Line, a
Path, and a Polygon feature. -/
theorem enu_roundtrip_geometry_witness :
    ∃ fc, ReadFeatureCollection flatTf (.obj rtDkvs) = Except.ok fc
      ∧ jAt (toJson fc) "features" = Except.ok (.arr (fc.features.map featureToJson))
      ∧ (∀ ft : Feature, jAt (featureToJson ft) "geometry"
            = Except.ok (geometryToJson ft.geometry))
      ∧ fc.features.map (fun ft => geometryToJson ft.geometry)
          = [rtFeature1, rtFeature2, rtFeature3, rtFeature4].map (fun fj => Json.obj
              [("type", .str (geomTypeOf (featGeomJson fj))),
               ("coordinates", geomCoordsOf (featGeomJson fj))]) :=
  enu_roundtrip_geometry flatTf rtDkvs rtProps "ENU" 5 6 7 [] 1
    [rtFeature1, rtFeature2, rtFeature3, rtFeature4]
    rfl rfl rfl (Or.inl rfl) rfl rfl rfl rfl

/-- C2: for every stored geometry the writer emits the coordinates field
exactly as the stored local planar positions, (x, y, z) into the
(lon, lat, alt) slots, with no inverse transform; and the emitted
features array does not depend on the coordinate-system tag of the
collection. -/
theorem writer_emits_local_coords :
    (∀ g : Geometry, jAt (geometryToJson g) "coordinates" = Except.ok (localCoordsSpec g))
    ∧ (∀ (fc : FeatureCollection) (c1 c2 : CRS),
        jAt (toJson { fc with crs := c1 }) "features"
          = jAt (toJson { fc with crs := c2 }) "features") := by
  constructor
  · intro g; cases g <;> rfl
  · intro fc c1 c2; rfl

/-- C3: the reader produces a Line exactly when a LineString coordinate
array has exactly 2 positions, otherwise a Path of the same length; and a
MultiLineString applies the same rule to every sub-array. -/
theorem lineString_two_point_rule (f : WGS → Datum → ENU) (d : Datum) (c : CRS) :
    (∀ (coords : Json) (g : Geometry), parseLineString f d c coords = Except.ok g →
      (coords.elements.length = 2 ∧ ∃ p q, g = Geometry.line ⟨p, q⟩)
      ∨ (coords.elements.length ≠ 2 ∧ ∃ ps, g = Geometry.path ⟨ps⟩
          ∧ ps.length = coords.elements.length))
    ∧ (∀ subs : List Json,
        parseGeometry f d c
            (.obj [("type", .str "MultiLineString"), ("coordinates", .arr subs)])
          = mapME (parseLineString f d c) subs) := by
  constructor
  · intro coords g h
    simp only [parseLineString] at h
    obtain ⟨pts, hpts, h⟩ := exbind_ok h
    cases h
    have hlen := mapME_ok_length hpts
    rcases pts with _ | ⟨a, _ | ⟨b, _ | ⟨e, t⟩⟩⟩
    · exact Or.inr ⟨by simp at hlen; omega, [], rfl, hlen⟩
    · exact Or.inr ⟨by simp at hlen; omega, [a], rfl, hlen⟩
    · exact Or.inl ⟨by simp at hlen; omega, a, b, rfl⟩
    · exact Or.inr ⟨by simp at hlen; omega, a :: b :: e :: t, rfl, hlen⟩
  · intro subs
    rw [pg_multiLineString f d c _ (.arr subs) (by rfl) (by rfl)]
    rfl

/-- C3 witness: a concrete two-point LineString (becomes a Line). -/
theorem lineString_two_point_rule_witness :
    (lsSample.elements.length = 2
       ∧ ∃ p q, Geometry.line ⟨⟨1, 2, 3⟩, ⟨4, 5, 6⟩⟩ = Geometry.line ⟨p, q⟩)
    ∨ (lsSample.elements.length ≠ 2
       ∧ ∃ ps, Geometry.line ⟨⟨1, 2, 3⟩, ⟨4, 5, 6⟩⟩ = Geometry.path ⟨ps⟩
           ∧ ps.length = lsSample.elements.length) :=
  (lineString_two_point_rule flatTf d0 CRS.ENU).1 lsSample
    (Geometry.line ⟨⟨1, 2, 3⟩, ⟨4, 5, 6⟩⟩) rfl

/-- C4 (amended): when any of the three guards fails (crs absent or not a
string, datum absent or not an array or shorter than 3, heading absent or
not a number), the import returns an error (so no collection is ever
built) and the message names one failing guard.  A datum array whose
first three elements are not all numbers passes the guard and fails later
with a generic numeric type error; see the counterexample theorem. -/
theorem missing_field_named_error (f : WGS → Datum → ENU) (doc : Json)
    (fkvs pkvs : List (String × Json))
    (hn : op.ReadFeatureCollection doc = Except.ok (.obj fkvs))
    (hp : List.lookup "properties" fkvs = some (.obj pkvs))
    (hbad : ¬ crsOK pkvs ∨ ¬ datumOK pkvs ∨ ¬ headingOK pkvs) :
    ∃ m, ReadFeatureCollection f doc = Except.error m
      ∧ ((¬ crsOK pkvs ∧ m = msgCrs) ∨ (¬ datumOK pkvs ∧ m = msgDatum)
         ∨ (¬ headingOK pkvs ∧ m = msgHeading)) := by
  by_cases h1 : crsOK pkvs
  · by_cases h2 : datumOK pkvs
    · by_cases h3 : headingOK pkvs
      · exact absurd hbad (by simp [h1, h2, h3])
      · obtain ⟨s, hs⟩ := h1
        obtain ⟨ds, hds, hlen⟩ := h2
        refine ⟨msgHeading, ?_, Or.inr (Or.inr ⟨h3, rfl⟩)⟩
        simp only [ReadFeatureCollection, hn, ok_bind, getObjEntries, getProps, hp,
          getCrsStr, hs, getDatumArr, hds, hlen, if_true, getHeadingNum_err h3,
          error_bind]
    · obtain ⟨s, hs⟩ := h1
      refine ⟨msgDatum, ?_, Or.inr (Or.inl ⟨h2, rfl⟩)⟩
      simp only [ReadFeatureCollection, hn, ok_bind, getObjEntries, getProps, hp,
        getCrsStr, hs, getDatumArr_err h2, error_bind]
  · refine ⟨msgCrs, ?_, Or.inl ⟨h1, rfl⟩⟩
    simp only [ReadFeatureCollection, hn, ok_bind, getObjEntries, getProps, hp,
      getCrsStr_err h1, error_bind]

/-- C4 witness: a document with heading absent. -/
theorem missing_field_named_error_witness :
    ∃ m, ReadFeatureCollection flatTf (.obj c4wFkvs) = Except.error m
      ∧ ((¬ crsOK c4wProps ∧ m = msgCrs) ∨ (¬ datumOK c4wProps ∧ m = msgDatum)
         ∨ (¬ headingOK c4wProps ∧ m = msgHeading)) :=
  missing_field_named_error flatTf (.obj c4wFkvs) c4wFkvs c4wProps rfl rfl
    (Or.inr (Or.inr (by rintro ⟨q, hq⟩; simp [c4wProps, List.lookup] at hq)))

/-- C4 counterexample: properties.datum is present but is an array of
three strings (not an array of numbers, so of the wrong type in the sense
of the claim); the import fails before any feature is built, but the
error message is the generic numeric type error and does not name the
datum field. -/
theorem datum_element_error_not_named :
    ReadFeatureCollection flatTf c4BadDatumDoc = Except.error "type must be number"
    ∧ strContains "type must be number" "datum" = false
    ∧ List.lookup "datum" [("crs", Json.str "ENU"),
        ("datum", Json.arr [.str "a", .str "b", .str "c"]), ("heading", Json.num 0)]
        = some (.arr [.str "a", .str "b", .str "c"]) :=
  ⟨rfl, by decide, rfl⟩

/-- C5: the crs alias table: EPSG:4326, WGS84, WGS resolve to the
geodetic tag; ENU, ECEF to the local tag; every other string makes
the import fail with the unknown-CRS error. -/
theorem parseCRS_alias_table (s : String) :
    (parseCRS s = Except.ok CRS.WGS ↔ (s = "EPSG:4326" ∨ s = "WGS84" ∨ s = "WGS"))
    ∧ (parseCRS s = Except.ok CRS.ENU ↔ (s = "ENU" ∨ s = "ECEF"))
    ∧ (¬(s = "EPSG:4326" ∨ s = "WGS84" ∨ s = "WGS" ∨ s = "ENU" ∨ s = "ECEF") →
        parseCRS s = Except.error ("Unknown CRS string: " ++ s)) := by
  unfold parseCRS
  split_ifs with h1 h2
  · rcases h1 with h | h | h <;> subst h <;>
      refine ⟨by simp, by simp, fun hno => ?_⟩ <;> simp at hno
  · rcases h2 with h | h <;> subst h <;>
      refine ⟨by simp, by simp, fun hno => ?_⟩ <;> simp at hno
  · exact ⟨⟨fun hh => (by cases hh), fun hh => absurd hh h1⟩,
           ⟨fun hh => (by cases hh), fun hh => absurd hh h2⟩, fun _ => rfl⟩

/-- C5 witness: a string outside the alias table fails. -/
theorem parseCRS_alias_table_witness :
    parseCRS "UTM" = Except.error ("Unknown CRS string: " ++ "UTM") :=
  (parseCRS_alias_table "UTM").2.2 (by decide)

/-- C6: a feature entry whose geometry field is null or absent
contributes no Feature at all and no error; a geometry node with an
unrecognized type string produces zero geometries and no error. -/
theorem skip_null_geometry_and_unknown_type (f : WGS → Datum → ENU) (d : Datum)
    (c : CRS) :
    (∀ kvs : List (String × Json),
       (List.lookup "geometry" kvs = some Json.null
          ∨ List.lookup "geometry" kvs = none) →
       readFeature f d c (.obj kvs) = Except.ok [])
    ∧ (∀ (gkvs : List (String × Json)) (ty : String),
       List.lookup "type" gkvs = some (.str ty) →
       ty ∉ (["Point", "LineString", "Polygon", "MultiPoint", "MultiLineString",
              "MultiPolygon", "GeometryCollection"] : List String) →
       parseGeometry f d c (.obj gkvs) = Except.ok []) := by
  constructor
  · intro kvs h
    rcases h with h | h <;> simp only [readFeature, getGeomField, h, Option.getD, ok_bind]
  · intro gkvs ty ht hu
    exact pg_unknown f d c gkvs ty ht hu

/-- C6 witness: a null-geometry feature and a Mystery-typed geometry. -/
theorem skip_null_geometry_and_unknown_type_witness :
    readFeature flatTf d0 CRS.ENU
        (.obj [("properties", .obj []), ("geometry", Json.null)]) = Except.ok []
    ∧ parseGeometry flatTf d0 CRS.ENU (.obj [("type", .str "Mystery")]) = Except.ok [] :=
  ⟨(skip_null_geometry_and_unknown_type flatTf d0 CRS.ENU).1 _ (Or.inl rfl),
   (skip_null_geometry_and_unknown_type flatTf d0 CRS.ENU).2 _ "Mystery" rfl (by decide)⟩

/-- C7: a polygon is built from exactly the points of the first ring of
its coordinate array, every later ring is ignored without error, and a
MultiPolygon applies parsePolygon to every iterated element. -/
theorem polygon_first_ring_only (f : WGS → Datum → ENU) (d : Datum) (c : CRS)
    (r0 : Json) (rest polys : List Json) :
    parsePolygon f d c (.arr (r0 :: rest))
      = (mapME (parsePoint f d c) r0.elements).map (fun pts => (⟨pts⟩ : Polygon))
    ∧ parsePolygon f d c (.arr (r0 :: rest)) = parsePolygon f d c (.arr [r0])
    ∧ parseGeometry f d c
          (.obj [("type", .str "MultiPolygon"), ("coordinates", .arr polys)])
      = (mapME (parsePolygon f d c) polys).map (List.map Geometry.polygon) := by
  refine ⟨?_, ?_, ?_⟩
  · simp only [parsePolygon, jIdx, List.get?, ok_bind]
    cases mapME (parsePoint f d c) r0.elements <;> rfl
  · rfl
  · rw [pg_multiPolygon f d c _ (.arr polys) (by rfl) (by rfl)]
    rfl

/-- C8: under the geodetic tag the reader swaps the document
longitude-first order into the latitude-first transform constructor and
stores the projected coordinates; under the local tag the triple passes
through unchanged with no transform applied. -/
theorem point_axis_swap_and_passthrough (f : WGS → Datum → ENU) (d : Datum)
    (lonv latv altv : ℚ) :
    parsePoint f d CRS.WGS (.arr [.num lonv, .num latv, .num altv])
      = Except.ok ⟨(f ⟨latv, lonv, altv⟩ d).x, (f ⟨latv, lonv, altv⟩ d).y,
                   (f ⟨latv, lonv, altv⟩ d).z⟩
    ∧ parsePoint f d CRS.ENU (.arr [.num lonv, .num latv, .num altv])
      = Except.ok ⟨lonv, latv, altv⟩ :=
  ⟨rfl, rfl⟩

/-- C9: the bare-geometry document of the spec example does not import:
the normalization wraps it in a collection without top-level properties,
so validation rejects every bare-geometry document (even one carrying the
collection-level properties inside the geometry object); the claim that
it imports to one Point feature cannot be satisfied by the code. -/
theorem bare_geometry_import_fails :
    ReadFeatureCollection flatTf bareGeomDoc = Except.error "missing top-level properties"
    ∧ ReadFeatureCollection flatTf bareGeomDocWithProps
        = Except.error "missing top-level properties"
    ∧ op.ReadFeatureCollection bareGeomDoc
        = Except.ok (.obj [("type", .str "FeatureCollection"),
            ("features", .arr [.obj [("type", .str "Feature"), ("geometry", bareGeomDoc),
                                     ("properties", .obj [])]])]) :=
  ⟨rfl, rfl, rfl⟩

/-- C10: the parsed crs string only selects the coordinate conversion;
the crs member of the returned collection is never assigned and keeps the
default of the type, so any two successful imports agree on it, and the
writer re-encodes the same crs string for both. -/
theorem read_crs_default_tag (f : WGS → Datum → ENU) (doc doc' : Json)
    (fc fc' : FeatureCollection)
    (h : ReadFeatureCollection f doc = Except.ok fc)
    (h' : ReadFeatureCollection f doc' = Except.ok fc') :
    fc.crs = defaultCRS ∧ fc'.crs = fc.crs
    ∧ (jAt (toJson fc) "properties").bind (fun p => jAt p "crs")
        = (jAt (toJson fc') "properties").bind (fun p => jAt p "crs") := by
  have e := read_ok_crs h
  have e' := read_ok_crs h'
  refine ⟨e, e'.trans e.symm, ?_⟩
  simp only [toJson, e, e']
  rfl

/-- C10 witness: one ENU-tagged and one WGS-tagged import. -/
theorem read_crs_default_tag_witness :
    fcA.crs = defaultCRS ∧ fcB.crs = fcA.crs
    ∧ (jAt (toJson fcA) "properties").bind (fun p => jAt p "crs")
        = (jAt (toJson fcB) "properties").bind (fun p => jAt p "crs") :=
  read_crs_default_tag flatTf emptyDocENU emptyDocWGS fcA fcB rfl rfl

end geoson
